import Mathlib

/-
  Verification development for the GoAnyBusiness repository.

  Shallow embedding of:
  - the configuration registry (src/unnamed/part_000, package any_business:
    Environment, Envs, Config, NewConfig, GetConfig, GetDefaultConfig,
    GetAddr, GetURL);
  - the router CORS policy (src/unnamed/part_001, api.CreateRouter, and the
    inline CORS config in src/internal/app/server.go);
  - the HTTP server handle construction and the server lifecycle
    orchestrator Run, in its two variants:
    src/internal/app/server.go (app.Run) and
    src/internal/any-business/server.go (any_business.Run).

  Go panics are modelled as Except errors; the global singleton map is
  modelled as explicit registry state threaded through the calls; the
  concurrent Run orchestrator is modelled as a function from an environment
  record (which of the racing events fires first, how the listener fares,
  whether the graceful-shutdown call errors) to the ordered trace of
  observable actions (log lines, shutdown and close calls) plus the way the
  function terminates (normal return vs fatal process exit via log.Fatalf).
-/

namespace GoAnyBusiness

/-- Go type Environment string from src/unnamed/part_000. -/
abbrev Environment := String

/-- Constant Testing from src/unnamed/part_000. -/
def Testing : Environment := "testing"

/-- Constant Development from src/unnamed/part_000. -/
def Development : Environment := "development"

/-- Constant Staging from src/unnamed/part_000. -/
def Staging : Environment := "staging"

/-- Constant Production from src/unnamed/part_000. -/
def Production : Environment := "production"

/-- Constant DefaultConfigName from src/unnamed/part_000. -/
def DefaultConfigName : String := "default"

/-- The array Envs of src/unnamed/part_000: the enumerated set of valid
environment tags, in source order. -/
def Envs : List Environment := [Testing, Development, Staging, Production]

/-- The Config struct of src/unnamed/part_000. The Go field port is a
uint16; it is stored here as a Nat already reduced mod 2^16 by the
uint16 conversion performed in NewConfig. -/
structure Config where
  Env : Environment
  AppName : String
  AppVersion : String
  TrustedProxies : List String
  host : String
  port : Nat
  deriving Repr, DecidableEq

/-- The process environment variables read by NewConfig through the
pkg/utils getters. Modelled from the spec: pkg/utils GetEnvString,
GetEnvInt and GetEnvStringSlice are not under src/; per the spec the
configuration-loading collaborator reads an environment variable and falls
back to the supplied default when the variable is unset, which is modelled
here as Option fields consumed with getD. -/
structure EnvVars where
  appHost : Option String
  appPort : Option Nat
  appName : Option String
  appVersion : Option String
  appEnvironment : Option String
  appNetworkingProxies : Option (List String)
  deriving Repr

/-- The Go panic sites of src/unnamed/part_000, modelled as error values:
duplicateConfig for the re-registration panic in NewConfig,
invalidEnvironment (carrying the offending value and the allowed set, as
the panic message does) for the environment validation panic in NewConfig,
and configNotFound for the missing-name panic in GetConfig. -/
inductive ConfigError where
  | duplicateConfig (name : String)
  | invalidEnvironment (value : String) (allowed : List Environment)
  | configNotFound (name : String)
  deriving Repr, DecidableEq

/-- The global configsSingletonMapping of src/unnamed/part_000, modelled
as explicit state: an association list from configuration names to
snapshots, newest entry first. -/
abbrev Registry := List (String × Config)

/-- Map indexing configsSingletonMapping[name]: first matching entry. -/
def regFind (st : Registry) (name : String) : Option Config :=
  match st with
  | [] => none
  | (k, v) :: rest => if k = name then some v else regFind rest name

/-- NewConfig from src/unnamed/part_000, with the Go panics turned into
Except errors. Steps in source order: duplicate-name check against the
singleton map, env-var reads with defaults (APP_HOST http://localhost,
APP_PORT 8001, APP_NAME unknown, APP_VERSION unknown, APP_ENVIRONMENT
development), validation of the environment tag against Envs, then
construction and insertion of the snapshot. The os.Setenv PORT side effect
touches only the process environment, not the registry, and is elided. -/
def NewConfig (configName : String) (vars : EnvVars) (st : Registry) :
    Except ConfigError (Config × Registry) :=
  match regFind st configName with
  | some _ => .error (.duplicateConfig configName)
  | none =>
    let host := vars.appHost.getD "http://localhost"
    let port := vars.appPort.getD 8001
    let appName := vars.appName.getD "unknown"
    let appVersion := vars.appVersion.getD "unknown"
    let environment : Environment := vars.appEnvironment.getD "development"
    if environment ∈ Envs then
      let trustedProxies := vars.appNetworkingProxies.getD []
      let config : Config :=
        { Env := environment
          AppName := appName
          AppVersion := appVersion
          TrustedProxies := trustedProxies
          host := host
          port := port % 65536 }
      .ok (config, (configName, config) :: st)
    else
      .error (.invalidEnvironment environment Envs)

/-- The state of the global singleton map after a NewConfig call: updated
on success, untouched when the call panicked (the Go map assignment is the
last statement of NewConfig, after every panic site). -/
def newConfigState (configName : String) (vars : EnvVars) (st : Registry) : Registry :=
  match NewConfig configName vars st with
  | .ok (_, st2) => st2
  | .error _ => st

/-- GetConfig from src/unnamed/part_000: map lookup, panicking (modelled
as configNotFound) when the name is absent. -/
def GetConfig (configName : String) (st : Registry) : Except ConfigError Config :=
  match regFind st configName with
  | some c => .ok c
  | none => .error (.configNotFound configName)

/-- GetDefaultConfig from src/unnamed/part_000. -/
def GetDefaultConfig (st : Registry) : Except ConfigError Config :=
  GetConfig DefaultConfigName st

/-- Method GetAddr of Config from src/unnamed/part_000:
fmt.Sprintf with format ":%d" applied to the port. -/
def Config.GetAddr (c : Config) : String := ":" ++ toString c.port

/-- Method GetURL of Config from src/unnamed/part_000:
fmt.Sprintf with format "%s:%d" applied to host and port. -/
def Config.GetURL (c : Config) : String := c.host ++ ":" ++ toString c.port

/-- The cors.Config literal installed on the router, identical in
api.CreateRouter (src/unnamed/part_001) and in the inline router setup of
app.Run (src/internal/app/server.go) and any_business.Run
(src/internal/any-business/server.go). -/
structure CorsConfig where
  allowMethods : List String
  allowHeaders : List String
  exposeHeaders : List String
  maxAgeHours : Nat
  allowCredentials : Bool
  allowAllOrigins : Bool
  deriving Repr, DecidableEq

/-- The CORS policy as a function of the configuration snapshot, from the
cors.New call: AllowAllOrigins is config.Env != Production. -/
def routerCors (config : Config) : CorsConfig :=
  { allowMethods := ["GET", "POST", "PUT", "DELETE", "OPTIONS"]
    allowHeaders := ["Origin", "Content-Type", "Authorization"]
    exposeHeaders := ["Content-Length"]
    maxAgeHours := 12
    allowCredentials := false
    allowAllOrigins := config.Env != Production }

/-- The http.Server literal built in Run (both variants), with the four
duration fields in seconds. -/
structure HttpServer where
  addr : String
  readHeaderTimeoutSec : Nat
  readTimeoutSec : Nat
  writeTimeoutSec : Nat
  idleTimeoutSec : Nat
  deriving Repr, DecidableEq

/-- Construction of the http.Server in Run: Addr is config.GetAddr() and
the four timeouts are the literals 5, 15, 30 and 120 seconds
(src/internal/app/server.go and src/internal/any-business/server.go). -/
def mkServer (config : Config) : HttpServer :=
  { addr := config.GetAddr
    readHeaderTimeoutSec := 5
    readTimeoutSec := 15
    writeTimeoutSec := 30
    idleTimeoutSec := 120 }

/-- The grace period passed to context.WithTimeout before srv.Shutdown in
Run (both variants): the literal 10 seconds. -/
def shutdownGracePeriodSec : Nat := 10

/-- The five operationally significant durations of one Run invocation,
as a function of the configuration snapshot: header-read, full-read,
write, idle and shutdown grace period, in seconds. -/
def serverTimeouts (config : Config) : Nat × Nat × Nat × Nat × Nat :=
  ((mkServer config).readHeaderTimeoutSec,
   (mkServer config).readTimeoutSec,
   (mkServer config).writeTimeoutSec,
   (mkServer config).idleTimeoutSec,
   shutdownGracePeriodSec)

/-- Whether the five durations depend on the configuration snapshot at
all, i.e. whether some pair of snapshots yields different durations. -/
def timeoutsDependOnConfig : Prop :=
  ∃ c1 c2 : Config, serverTimeouts c1 ≠ serverTimeouts c2

/-- The recognized termination signals: syscall.SIGINT, SIGTERM, SIGHUP,
SIGQUIT, from the signal.Notify call of Run. -/
inductive Sig where
  | sigint
  | sigterm
  | sighup
  | sigquit
  deriving Repr, DecidableEq

/-- How the serving goroutine of Run fares: ListenAndServe either fails
while binding (never serving any request), or binds and serves until a
runtime error or until it is closed (returning http.ErrServerClosed). -/
inductive ServeOutcome where
  | runtimeError (err : String)
  | closedCleanly
  deriving Repr, DecidableEq

/-- Fate of the listener for one run. -/
inductive ListenFate where
  | bindFailed (err : String)
  | served (outcome : ServeOutcome)
  deriving Repr, DecidableEq

/-- Which of the two racing events the select statement of Run observes
first: the signal-triggered context cancellation, or the completion value
sent by the serving goroutine on the startup-error channel. -/
inductive FirstObserved where
  | signalFirst (sig : Sig)
  | listenerFirst
  deriving Repr, DecidableEq

/-- The environment of one Run invocation: everything outside the
orchestrator code that determines its control flow. shutdownErr is the
value srv.Shutdown returns (some err models the grace period elapsing or
any other shutdown error); closeErr is the value srv.Close returns on the
forced-close branch, discarded by both variants. -/
structure RunEnv where
  fate : ListenFate
  first : FirstObserved
  shutdownErr : Option String
  closeErr : Option String
  deriving Repr

/-- The value the serving goroutine sends on its buffered channel, from
the goroutine body of Run: a wrapped error for any ListenAndServe error
other than http.ErrServerClosed, nil otherwise. Both variants wrap the
error in a message whose text differs but whose content is the underlying
error; the wrapper text is kept for the app variant and parametrized by
the service name for the any-business variant. -/
def appStartUpErrValue : ListenFate → Option String
  | .bindFailed err => some ("server issues while listening: " ++ err)
  | .served (.runtimeError err) => some ("server issues while listening: " ++ err)
  | .served .closedCleanly => none

/-- srvName from Run: fmt.Sprintf with format string
"Service %s-V%s (%s)" over AppName, AppVersion, GetAddr. -/
def srvName (config : Config) : String :=
  "Service " ++ config.AppName ++ "-V" ++ config.AppVersion ++ " (" ++ config.GetAddr ++ ")"

/-- The value sent on the shutdownErr channel of any_business.Run, whose
wrapper text names the service. -/
def abShutdownErrValue (name : String) : ListenFate → Option String
  | .bindFailed err =>
      some (name ++ " - Error while shutting down server, error: " ++ err ++ "\n")
  | .served (.runtimeError err) =>
      some (name ++ " - Error while shutting down server, error: " ++ err ++ "\n")
  | .served .closedCleanly => none

/-- Observable actions of one Run invocation, in program order: the log
statements of Run and the two listener-stopping calls srv.Shutdown and
srv.Close. -/
inductive Action where
  | logStarting
  | logStarted
  | logSignalShutdown (sig : Sig)
  | logStartupFailure (err : String)
  | logServeStoppedShutdown
  | callShutdown
  | callClose
  | logForcedShutdown (err : String)
  | logCleanup
  | logExiting
  deriving Repr, DecidableEq

/-- How the Run invocation terminates: a normal return to the caller, or
a fatal process exit with non-zero status caused by log.Fatalf. -/
inductive ExitKind where
  | returned
  | fatalExit
  deriving Repr, DecidableEq

/-- The trace of one Run invocation: the ordered observable actions and
the way the function terminated. -/
structure RunTrace where
  actions : List Action
  exitKind : ExitKind
  deriving Repr, DecidableEq

/-- The tail of app.Run after the select statement
(src/internal/app/server.go): srv.Shutdown under the 10-second context;
on error, srv.Close with its result discarded, the forced-shutdown log
line, and return; on success the cleanup and exiting log lines and
return. -/
def appShutdownSeq (env : RunEnv) : List Action × ExitKind :=
  match env.shutdownErr with
  | some err => ([.callShutdown, .callClose, .logForcedShutdown err], .returned)
  | none => ([.callShutdown, .logCleanup, .logExiting], .returned)

/-- app.Run from src/internal/app/server.go, from the point where the
serving goroutine is launched: the starting and started log lines, the
select over context cancellation (signal) and the startup-error channel,
the early return on a startup/runtime failure, and otherwise the shutdown
sequence. -/
def appRun (env : RunEnv) : RunTrace :=
  let startLogs : List Action := [.logStarting, .logStarted]
  match env.first with
  | .signalFirst sig =>
    let tail := appShutdownSeq env
    { actions := startLogs ++ [.logSignalShutdown sig] ++ tail.1, exitKind := tail.2 }
  | .listenerFirst =>
    match appStartUpErrValue env.fate with
    | some err =>
      { actions := startLogs ++ [.logStartupFailure err], exitKind := .returned }
    | none =>
      let tail := appShutdownSeq env
      { actions := startLogs ++ [.logServeStoppedShutdown] ++ tail.1, exitKind := tail.2 }

/-- The tail of any_business.Run after the select statement
(src/internal/any-business/server.go): srv.Shutdown under the 10-second
context; on error, srv.Close with its result discarded and then
log.Fatalf, which exits the process; on success the cleanup and exiting
log lines and return. -/
def abShutdownSeq (env : RunEnv) : List Action × ExitKind :=
  match env.shutdownErr with
  | some err => ([.callShutdown, .callClose, .logForcedShutdown err], .fatalExit)
  | none => ([.callShutdown, .logCleanup, .logExiting], .returned)

/-- any_business.Run from src/internal/any-business/server.go, from the
point where the serving goroutine is launched. It differs from app.Run in
that a startup/runtime failure is reported with log.Fatalf (process exit)
instead of a plain log and return, and the forced-shutdown branch also
ends in log.Fatalf. -/
def anyBusinessRun (name : String) (env : RunEnv) : RunTrace :=
  let startLogs : List Action := [.logStarting, .logStarted]
  match env.first with
  | .signalFirst sig =>
    let tail := abShutdownSeq env
    { actions := startLogs ++ [.logSignalShutdown sig] ++ tail.1, exitKind := tail.2 }
  | .listenerFirst =>
    match abShutdownErrValue name env.fate with
    | some err =>
      { actions := startLogs ++ [.logStartupFailure err], exitKind := .fatalExit }
    | none =>
      let tail := abShutdownSeq env
      { actions := startLogs ++ [.logServeStoppedShutdown] ++ tail.1, exitKind := tail.2 }

/-- Whether the listener ever reached the Serving phase in this
environment: true exactly when the bind succeeded. -/
def servingReached (env : RunEnv) : Bool :=
  match env.fate with
  | .served _ => true
  | .bindFailed _ => false

/-- Whether Run proceeds past the select into the shutdown sequence:
it does so when the signal wins the race, or when the listener completed
with a nil channel value (closed cleanly). -/
def reachesShutdownPhase (env : RunEnv) : Bool :=
  match env.first with
  | .signalFirst _ => true
  | .listenerFirst =>
    match env.fate with
    | .served .closedCleanly => true
    | _ => false

/-- Number of srv.Shutdown calls in a trace. -/
def countShutdownCalls : List Action → Nat
  | [] => 0
  | .callShutdown :: rest => countShutdownCalls rest + 1
  | _ :: rest => countShutdownCalls rest

/-- Number of srv.Close calls in a trace. -/
def countCloseCalls : List Action → Nat
  | [] => 0
  | .callClose :: rest => countCloseCalls rest + 1
  | _ :: rest => countCloseCalls rest

/-- Checks that every srv.Close call in the action list is preceded by an
earlier srv.Shutdown call; the flag records whether a shutdown call has
been seen so far. -/
def closeOnlyAfterShutdown (seen : Bool) : List Action → Bool
  | [] => true
  | .callClose :: rest => seen && closeOnlyAfterShutdown seen rest
  | .callShutdown :: rest => closeOnlyAfterShutdown true rest
  | _ :: rest => closeOnlyAfterShutdown seen rest

/-- Classification of a finished trace by its final log line, following
the three exit paths of Run: the startup/runtime-failure log, the
exiting log of the clean path, the forced-shutdown log of the forced
path. -/
inductive RunOutcome where
  | startupFailure
  | cleanStop
  | forcedStop
  deriving Repr, DecidableEq

/-- Reads the outcome off the last action of a trace. -/
def traceOutcome (t : RunTrace) : Option RunOutcome :=
  match t.actions.getLast? with
  | some (.logStartupFailure _) => some .startupFailure
  | some .logExiting => some .cleanStop
  | some (.logForcedShutdown _) => some .forcedStop
  | _ => none

/-- Primitive steps of a registry operation, for reasoning about the
configLock mutex of src/unnamed/part_000: acquiring and releasing the
lock, reading and writing the singleton map, the os.Setenv PORT side
effect, and a panic. -/
inductive RegStep where
  | lockAcquire
  | lockRelease
  | mapRead (name : String)
  | mapWrite (name : String)
  | setPortEnv (port : Nat)
  | panicked (err : ConfigError)
  deriving Repr, DecidableEq

/-- The step trace of NewConfig from src/unnamed/part_000:
configLock.Lock() on entry, the map read of the duplicate check, then
either the duplicate panic, or the env-var reads (with the os.Setenv PORT
effect) followed by the validation panic or the map write; the deferred
configLock.Unlock() runs on every exit path, panics included. -/
def newConfigSteps (configName : String) (vars : EnvVars) (st : Registry) : List RegStep :=
  [RegStep.lockAcquire] ++
  (match regFind st configName with
   | some _ => [RegStep.mapRead configName, RegStep.panicked (.duplicateConfig configName)]
   | none =>
     let port := vars.appPort.getD 8001
     let environment : Environment := vars.appEnvironment.getD "development"
     if environment ∈ Envs then
       [RegStep.mapRead configName, RegStep.setPortEnv port, RegStep.mapWrite configName]
     else
       [RegStep.mapRead configName, RegStep.setPortEnv port,
        RegStep.panicked (.invalidEnvironment environment Envs)]) ++
  [RegStep.lockRelease]

/-- The step trace of GetConfig from src/unnamed/part_000: a bare map
read (the source takes no lock), then a panic when the name is absent. -/
def getConfigSteps (configName : String) (st : Registry) : List RegStep :=
  match regFind st configName with
  | some _ => [RegStep.mapRead configName]
  | none => [RegStep.mapRead configName, RegStep.panicked (.configNotFound configName)]

/-- Checks that every map access in the step list happens while the lock
is held; the first argument is the current lock-hold depth. -/
def mapAccessesLocked : Nat → List RegStep → Bool
  | _, [] => true
  | d, .lockAcquire :: rest => mapAccessesLocked (d + 1) rest
  | d, .lockRelease :: rest => mapAccessesLocked (d - 1) rest
  | d, .mapRead _ :: rest => decide (0 < d) && mapAccessesLocked d rest
  | d, .mapWrite _ :: rest => decide (0 < d) && mapAccessesLocked d rest
  | d, _ :: rest => mapAccessesLocked d rest

/-- Whether the step list acquires the lock at any point. -/
def containsLockAcquire : List RegStep → Bool
  | [] => false
  | .lockAcquire :: _ => true
  | _ :: rest => containsLockAcquire rest

/-- A concrete configuration snapshot used by the concrete-input
instantiations below: the snapshot NewConfig builds from an empty process
environment. -/
def sampleConfig : Config :=
  { Env := Development
    AppName := "unknown"
    AppVersion := "unknown"
    TrustedProxies := []
    host := "http://localhost"
    port := 8001 }

/-- Claim C3: for every environment tag in the enumerated set testing,
development, staging, production, configuration-snapshot construction
succeeds (registering the snapshot, whose Env field is the tag); for
every tag outside the set it fails with invalidEnvironment carrying the
offending value and the allowed set, and the registry is left unchanged,
so the snapshot is never stored. -/
theorem c3_environment_validation (tag configName : String) (vars : EnvVars) (st : Registry)
    (htag : vars.appEnvironment = some tag) (hfree : regFind st configName = none) :
    (tag ∈ Envs →
      ∃ cfg, NewConfig configName vars st = .ok (cfg, (configName, cfg) :: st) ∧ cfg.Env = tag) ∧
    (tag ∉ Envs →
      NewConfig configName vars st = .error (.invalidEnvironment tag Envs) ∧
      newConfigState configName vars st = st) := by
  constructor
  · intro hm
    refine ⟨{ Env := tag
              AppName := vars.appName.getD "unknown"
              AppVersion := vars.appVersion.getD "unknown"
              TrustedProxies := vars.appNetworkingProxies.getD []
              host := vars.appHost.getD "http://localhost"
              port := vars.appPort.getD 8001 % 65536 }, ?_, rfl⟩
    simp [NewConfig, hfree, htag, hm]
  · intro hm
    have h1 : NewConfig configName vars st = .error (.invalidEnvironment tag Envs) := by
      simp [NewConfig, hfree, htag, hm]
    exact ⟨h1, by simp [newConfigState, h1]⟩

/-- Witness for c3_environment_validation at the tag production, the
default configuration name and an empty registry. -/
theorem c3_environment_validation_witness :
    ("production" ∈ Envs →
      ∃ cfg, NewConfig "default" ⟨none, none, none, none, some "production", none⟩ [] =
        .ok (cfg, ("default", cfg) :: []) ∧ cfg.Env = "production") ∧
    ("production" ∉ Envs →
      NewConfig "default" ⟨none, none, none, none, some "production", none⟩ [] =
        .error (.invalidEnvironment "production" Envs) ∧
      newConfigState "default" ⟨none, none, none, none, some "production", none⟩ [] = []) :=
  c3_environment_validation "production" "default"
    ⟨none, none, none, none, some "production", none⟩ [] rfl rfl

/-- Claim C4: re-registering a name already present in the registry fails
with duplicateConfig, leaves the registry completely unchanged, and a
lookup of that name after the failed call still returns the original
snapshot with all its original field values. -/
theorem c4_duplicate_registration (configName : String) (cfg : Config) (vars : EnvVars)
    (st : Registry) (h : regFind st configName = some cfg) :
    NewConfig configName vars st = .error (.duplicateConfig configName) ∧
    newConfigState configName vars st = st ∧
    GetConfig configName (newConfigState configName vars st) = .ok cfg := by
  have h1 : NewConfig configName vars st = .error (.duplicateConfig configName) := by
    simp [NewConfig, h]
  have h2 : newConfigState configName vars st = st := by
    simp [newConfigState, h1]
  refine ⟨h1, h2, ?_⟩
  rw [h2]
  simp [GetConfig, h]

/-- Witness for c4_duplicate_registration on a registry holding
sampleConfig under the default name. -/
theorem c4_duplicate_registration_witness :
    NewConfig "default" ⟨none, none, none, none, none, none⟩ [("default", sampleConfig)] =
      .error (.duplicateConfig "default") ∧
    newConfigState "default" ⟨none, none, none, none, none, none⟩ [("default", sampleConfig)] =
      [("default", sampleConfig)] ∧
    GetConfig "default"
      (newConfigState "default" ⟨none, none, none, none, none, none⟩
        [("default", sampleConfig)]) = .ok sampleConfig :=
  c4_duplicate_registration "default" sampleConfig ⟨none, none, none, none, none, none⟩
    [("default", sampleConfig)] rfl

/-- Claim C6: looking up a name absent from the registry fails with
configNotFound naming the missing name, and never returns any snapshot,
in particular no zero-valued one. -/
theorem c6_unknown_lookup (configName : String) (st : Registry)
    (h : regFind st configName = none) :
    GetConfig configName st = .error (.configNotFound configName) ∧
    ∀ cfg : Config, GetConfig configName st ≠ .ok cfg := by
  have h1 : GetConfig configName st = .error (.configNotFound configName) := by
    simp [GetConfig, h]
  refine ⟨h1, fun cfg hc => ?_⟩
  rw [h1] at hc
  exact Except.noConfusion hc

/-- Witness for c6_unknown_lookup: the name missing is absent from a
one-entry registry. -/
theorem c6_unknown_lookup_witness :
    GetConfig "missing" [("default", sampleConfig)] =
      .error (.configNotFound "missing") ∧
    ∀ cfg : Config, GetConfig "missing" [("default", sampleConfig)] ≠ .ok cfg :=
  c6_unknown_lookup "missing" [("default", sampleConfig)] rfl

/-- Claim C7: the CORS policy installed on the router allows all origins
if and only if the environment tag of the configuration is not
production; under the production tag all-origins access is not
allowed. -/
theorem c7_cors_all_origins (config : Config) :
    ((routerCors config).allowAllOrigins = true ↔ config.Env ≠ Production) ∧
    (routerCors { config with Env := Production }).allowAllOrigins = false := by
  constructor
  · simp [routerCors, bne_iff_ne]
  · simp [routerCors]

/-- Claim C8 counterexample: the five durations (header-read, full-read,
write, idle, shutdown grace period) are not configurable — no pair of
configuration snapshots yields different values, because Run builds the
http.Server from the literals 5, 15, 30, 120 and passes the literal 10 to
context.WithTimeout. -/
theorem c8_counterexample : ¬ timeoutsDependOnConfig :=
  fun h => h.elim fun _ h1 => h1.elim fun _ h2 => h2 rfl

/-- Claim C8 as amended: the server handle is constructed with the five
durations at the stated defaults of 5, 15, 30, 120 and 10 seconds, but
they are hard-coded literals: every configuration snapshot yields exactly
these values, so they are not configurable. -/
theorem c8_timeouts_hard_coded (config : Config) :
    serverTimeouts config = (5, 15, 30, 120, 10) := rfl

/-- Claim C9 counterexample: the lookup operation GetConfig performs its
map access without holding the lock — its step trace on the default name
and an empty registry contains a map access at lock depth zero and never
acquires the lock at all, refuting that every registry operation acquires
the process-wide mutual-exclusion lock for its map access. -/
theorem c9_counterexample :
    mapAccessesLocked 0 (getConfigSteps DefaultConfigName []) = false ∧
    containsLockAcquire (getConfigSteps DefaultConfigName []) = false := ⟨rfl, rfl⟩

/-- Claim C9 as amended: registration (NewConfig) acquires the
process-wide lock on entry and holds it for all of its map accesses on
every path, but lookup (GetConfig) reads the singleton map without ever
acquiring the lock, so concurrent registrations and lookups are not
serialized by it. -/
theorem c9_registration_locked_lookup_unlocked (configName : String) (vars : EnvVars)
    (st : Registry) :
    mapAccessesLocked 0 (newConfigSteps configName vars st) = true ∧
    containsLockAcquire (getConfigSteps configName st) = false := by
  constructor
  · cases hf : regFind st configName with
    | some c => simp [newConfigSteps, hf, mapAccessesLocked]
    | none =>
      by_cases hm : (vars.appEnvironment.getD "development") ∈ Envs
      · simp [newConfigSteps, hf, hm, mapAccessesLocked]
      · simp [newConfigSteps, hf, hm, mapAccessesLocked]
  · cases hf : regFind st configName with
    | some c => simp [getConfigSteps, hf, containsLockAcquire]
    | none => simp [getConfigSteps, hf, containsLockAcquire]

/-- Claim C10: the address the server handle is constructed to listen on
is the colon-prefixed port alone, independent of the configured bind host
field, while the host field is used by the full-URL formatter GetURL. -/
theorem c10_bind_address (config : Config) (otherHost : String) :
    (mkServer config).addr = ":" ++ toString config.port ∧
    (mkServer { config with host := otherHost }).addr = (mkServer config).addr ∧
    config.GetURL = config.host ++ ":" ++ toString config.port :=
  ⟨rfl, rfl, rfl⟩

/-- Claim C1: when the listener fails to bind and that failure is what
the select observes, both Run variants log the startup failure and
terminate on the failure path: the Serving phase is never reached, no
graceful-shutdown call and no forced close is ever issued, and the trace
ends at the startup-failure log line. The app variant returns normally to
its caller; the any-business variant surfaces the same failure through
log.Fatalf, exiting the process with non-zero status. -/
theorem c1_bind_failure_no_shutdown (env : RunEnv) (name err : String)
    (hf : env.fate = .bindFailed err) (ho : env.first = .listenerFirst) :
    servingReached env = false ∧
    (appRun env).actions =
      [.logStarting, .logStarted,
       .logStartupFailure ("server issues while listening: " ++ err)] ∧
    traceOutcome (appRun env) = some .startupFailure ∧
    countShutdownCalls (appRun env).actions = 0 ∧
    countCloseCalls (appRun env).actions = 0 ∧
    (appRun env).exitKind = .returned ∧
    traceOutcome (anyBusinessRun name env) = some .startupFailure ∧
    countShutdownCalls (anyBusinessRun name env).actions = 0 ∧
    countCloseCalls (anyBusinessRun name env).actions = 0 ∧
    (anyBusinessRun name env).exitKind = .fatalExit := by
  obtain ⟨fate, first, sErr, cErr⟩ := env
  cases hf
  cases ho
  exact ⟨rfl, rfl, rfl, rfl, rfl, rfl, rfl, rfl, rfl, rfl⟩

/-- Witness for c1_bind_failure_no_shutdown at a concrete
address-already-in-use bind failure observed first by the select. -/
theorem c1_bind_failure_no_shutdown_witness :
    servingReached ⟨.bindFailed "bind: address already in use", .listenerFirst, none, none⟩ =
      false ∧
    (appRun ⟨.bindFailed "bind: address already in use", .listenerFirst, none, none⟩).actions =
      [.logStarting, .logStarted,
       .logStartupFailure
         ("server issues while listening: " ++ "bind: address already in use")] ∧
    traceOutcome
      (appRun ⟨.bindFailed "bind: address already in use", .listenerFirst, none, none⟩) =
      some .startupFailure ∧
    countShutdownCalls
      (appRun
        ⟨.bindFailed "bind: address already in use", .listenerFirst, none, none⟩).actions = 0 ∧
    countCloseCalls
      (appRun
        ⟨.bindFailed "bind: address already in use", .listenerFirst, none, none⟩).actions = 0 ∧
    (appRun ⟨.bindFailed "bind: address already in use", .listenerFirst, none, none⟩).exitKind =
      .returned ∧
    traceOutcome
      (anyBusinessRun "svc"
        ⟨.bindFailed "bind: address already in use", .listenerFirst, none, none⟩) =
      some .startupFailure ∧
    countShutdownCalls
      (anyBusinessRun "svc"
        ⟨.bindFailed "bind: address already in use", .listenerFirst, none, none⟩).actions = 0 ∧
    countCloseCalls
      (anyBusinessRun "svc"
        ⟨.bindFailed "bind: address already in use", .listenerFirst, none, none⟩).actions = 0 ∧
    (anyBusinessRun "svc"
      ⟨.bindFailed "bind: address already in use", .listenerFirst, none, none⟩).exitKind =
      .fatalExit :=
  c1_bind_failure_no_shutdown
    ⟨.bindFailed "bind: address already in use", .listenerFirst, none, none⟩
    "svc" "bind: address already in use" rfl rfl

/-- Claim C2 counterexample: in the any-business orchestrator, when the
select observes a signal while serving and the graceful-shutdown call
errors with a deadline-exceeded error, the run does force-close the
listener, but it then terminates the process fatally via log.Fatalf
instead of returning normally — the shutdown error is propagated as a
process-fatal error, refuting the claim that the process is never
crashed or exited on this path. -/
theorem c2_counterexample :
    countCloseCalls
      (anyBusinessRun "svc"
        ⟨.served .closedCleanly, .signalFirst .sigint,
         some "context deadline exceeded", none⟩).actions = 1 ∧
    (anyBusinessRun "svc"
      ⟨.served .closedCleanly, .signalFirst .sigint,
       some "context deadline exceeded", none⟩).exitKind = .fatalExit ∧
    (anyBusinessRun "svc"
      ⟨.served .closedCleanly, .signalFirst .sigint,
       some "context deadline exceeded", none⟩).exitKind ≠ .returned :=
  ⟨rfl, rfl, fun h => ExitKind.noConfusion h⟩

/-- Claim C2 as amended: whenever the run reaches the shutdown phase and
the graceful-shutdown call errors, both variants issue the forced close
immediately after the single shutdown call, discard the force-close
error entirely (the whole trace is independent of it), and log the
forced shutdown with the shutdown error; the app orchestrator then
returns normally, never escalating the shutdown error to a process-fatal
error, while the any-business orchestrator logs it fatally and exits the
process. -/
theorem c2_shutdown_error_forced_close (env : RunEnv) (name err : String)
    (ce : Option String)
    (hreach : reachesShutdownPhase env = true) (hs : env.shutdownErr = some err) :
    List.IsSuffix [Action.callShutdown, Action.callClose, Action.logForcedShutdown err]
      (appRun env).actions ∧
    traceOutcome (appRun env) = some .forcedStop ∧
    (appRun env).exitKind = .returned ∧
    appRun { env with closeErr := ce } = appRun env ∧
    List.IsSuffix [Action.callShutdown, Action.callClose, Action.logForcedShutdown err]
      (anyBusinessRun name env).actions ∧
    (anyBusinessRun name env).exitKind = .fatalExit ∧
    anyBusinessRun name { env with closeErr := ce } = anyBusinessRun name env := by
  obtain ⟨fate, first, sErr, cErr⟩ := env
  cases hs
  cases first with
  | signalFirst sig =>
    exact ⟨⟨[.logStarting, .logStarted, .logSignalShutdown sig], rfl⟩, rfl, rfl, rfl,
      ⟨[.logStarting, .logStarted, .logSignalShutdown sig], rfl⟩, rfl, rfl⟩
  | listenerFirst =>
    rcases fate with e | e | _
    · exact Bool.noConfusion hreach
    · exact Bool.noConfusion hreach
    · exact ⟨⟨[.logStarting, .logStarted, .logServeStoppedShutdown], rfl⟩, rfl, rfl, rfl,
        ⟨[.logStarting, .logStarted, .logServeStoppedShutdown], rfl⟩, rfl, rfl⟩

/-- Witness for c2_shutdown_error_forced_close at a concrete interrupt
signal with a deadline-exceeded shutdown error and a concrete discarded
close error. -/
theorem c2_shutdown_error_forced_close_witness :
    List.IsSuffix
      [Action.callShutdown, Action.callClose,
       Action.logForcedShutdown "context deadline exceeded"]
      (appRun ⟨.served .closedCleanly, .signalFirst .sigint,
        some "context deadline exceeded", none⟩).actions ∧
    traceOutcome
      (appRun ⟨.served .closedCleanly, .signalFirst .sigint,
        some "context deadline exceeded", none⟩) = some .forcedStop ∧
    (appRun ⟨.served .closedCleanly, .signalFirst .sigint,
      some "context deadline exceeded", none⟩).exitKind = .returned ∧
    appRun ⟨.served .closedCleanly, .signalFirst .sigint,
        some "context deadline exceeded", some "use of closed network connection"⟩ =
      appRun ⟨.served .closedCleanly, .signalFirst .sigint,
        some "context deadline exceeded", none⟩ ∧
    List.IsSuffix
      [Action.callShutdown, Action.callClose,
       Action.logForcedShutdown "context deadline exceeded"]
      (anyBusinessRun "svc" ⟨.served .closedCleanly, .signalFirst .sigint,
        some "context deadline exceeded", none⟩).actions ∧
    (anyBusinessRun "svc" ⟨.served .closedCleanly, .signalFirst .sigint,
      some "context deadline exceeded", none⟩).exitKind = .fatalExit ∧
    anyBusinessRun "svc" ⟨.served .closedCleanly, .signalFirst .sigint,
        some "context deadline exceeded", some "use of closed network connection"⟩ =
      anyBusinessRun "svc" ⟨.served .closedCleanly, .signalFirst .sigint,
        some "context deadline exceeded", none⟩ :=
  c2_shutdown_error_forced_close
    ⟨.served .closedCleanly, .signalFirst .sigint, some "context deadline exceeded", none⟩
    "svc" "context deadline exceeded" (some "use of closed network connection") rfl rfl

/-- Claim C5: in every run of either orchestrator variant, the
graceful-shutdown call is issued exactly once when the run reaches the
shutdown phase and never otherwise (so at most once per run), the forced
close occurs exactly when the shutdown attempt was made and errored, and
in the ordered action trace every forced close is preceded by an earlier
graceful-shutdown call — forced close is never the first shutdown action
taken. -/
theorem c5_shutdown_once_close_after (env : RunEnv) (name : String) :
    countShutdownCalls (appRun env).actions = cond (reachesShutdownPhase env) 1 0 ∧
    countCloseCalls (appRun env).actions =
      cond (reachesShutdownPhase env && env.shutdownErr.isSome) 1 0 ∧
    closeOnlyAfterShutdown false (appRun env).actions = true ∧
    countShutdownCalls (anyBusinessRun name env).actions =
      cond (reachesShutdownPhase env) 1 0 ∧
    countCloseCalls (anyBusinessRun name env).actions =
      cond (reachesShutdownPhase env && env.shutdownErr.isSome) 1 0 ∧
    closeOnlyAfterShutdown false (anyBusinessRun name env).actions = true := by
  obtain ⟨fate, first, sErr, cErr⟩ := env
  rcases first with sig | _ <;> rcases fate with e | e | _ <;> rcases sErr with _ | s <;>
    exact ⟨rfl, rfl, rfl, rfl, rfl, rfl⟩

end GoAnyBusiness
